import Mathlib

/-!
Verification of the devto-article-cli core: the Change-Set Resolver
(signals A, B, C and their union in `getPublishableMarkdownFiles`), the
remote-branch fallback chain, and the Publish Transaction Executor
(`publishArticle`).  The metadata codec (gray-matter) is an external
round-trip collaborator, so document files are modelled in parsed form
(header plus body); git commands and the Dev.to client are modelled as
oracles supplying their observable results.
-/

namespace DevtoCli

/-- A front-matter scalar value as JavaScript sees it after YAML parsing:
integers, strings, booleans, null, and (string) arrays. -/
inductive JSValue where
  | vNum (n : Int)
  | vStr (s : String)
  | vBool (b : Bool)
  | vNull
  | vArr (elems : List String)
deriving DecidableEq

/-- JavaScript truthiness of a front-matter value: 0, the empty string,
false and null are falsy; arrays are always truthy. -/
def truthy : JSValue → Bool
  | JSValue.vNum n => n != 0
  | JSValue.vStr s => s != ""
  | JSValue.vBool b => b
  | JSValue.vNull => false
  | JSValue.vArr _ => true

/-- JavaScript String(v) on a front-matter value (as used on
dev_to_article_id before parseInt). -/
def jsToString : JSValue → String
  | JSValue.vNum n => toString n
  | JSValue.vStr s => s
  | JSValue.vBool b => cond b "true" "false"
  | JSValue.vNull => "null"
  | JSValue.vArr elems => String.intercalate "," elems

/-- Numeric value of a list of decimal digits. -/
def digitsVal (ds : List Char) : Nat :=
  ds.foldl (fun a c => 10 * a + (c.toNat - 48)) 0

/-- Models JavaScript parseInt(s, 10): skip leading whitespace, an
optional sign, then take the maximal decimal-digit prefix; if that prefix
is empty the result is NaN, modelled as none. -/
def parseIntJS (s : String) : Option Int :=
  let cs := s.data.dropWhile (fun c => c.isWhitespace)
  let signAndRest : Int × List Char :=
    match cs with
    | '-' :: rest => (-1, rest)
    | '+' :: rest => (1, rest)
    | _ => (1, cs)
  let ds := signAndRest.2.takeWhile (fun c => c.isDigit)
  if ds.isEmpty then none
  else some (signAndRest.1 * (digitsVal ds : Int))

/-- A parsed front-matter header: ordered key/value pairs, as gray-matter
hands the data object to the JavaScript code. -/
abbrev Header : Type := List (String × JSValue)

/-- Property read on a JavaScript object: first binding of the key, none
when the property is absent (undefined). -/
def getField (h : Header) (k : String) : Option JSValue :=
  (List.find? (fun p => p.1 == k) h).map (fun p => p.2)

/-- Truthiness of a possibly-absent property (undefined is falsy). -/
def fmTruthy (o : Option JSValue) : Bool :=
  match o with
  | some v => truthy v
  | none => false

/-- Assignment on an association list, modelling JavaScript property
assignment: an existing key is overwritten in place, a new key is
appended at the end. -/
def setAssoc {α : Type} (l : List (String × α)) (k : String) (v : α) :
    List (String × α) :=
  if (List.find? (fun p => p.1 == k) l).isSome then
    l.map (fun p => if p.1 == k then (k, v) else p)
  else l ++ [(k, v)]

/-! ## JavaScript string operations

The JavaScript string operations used by the resolver are modelled at
the character-list level so that they stay structurally computable:
substring, trim, startsWith, endsWith, includes, length and the
backslash-to-slash replace. -/

/-- JS s.substring(n) (drop the first n characters). -/
def jsDropChars (s : String) (n : Nat) : String :=
  String.mk (s.data.drop n)

/-- JS s.substring(0, n) (take the first n characters). -/
def jsTakeChars (s : String) (n : Nat) : String :=
  String.mk (s.data.take n)

/-- Drop the final character, as JS s.substring(1, s.length - 1) does
after the initial character has been dropped. -/
def jsDropLastChar (s : String) : String :=
  String.mk s.data.dropLast

/-- JS s.trim(): whitespace removed from both ends. -/
def jsTrim (s : String) : String :=
  String.mk
    (((s.data.dropWhile Char.isWhitespace).reverse.dropWhile
      Char.isWhitespace).reverse)

/-- JS s.startsWith(pre). -/
def jsStartsWith (s pre : String) : Bool :=
  pre.data.isPrefixOf s.data

/-- JS s.endsWith(suf). -/
def jsEndsWith (s suf : String) : Bool :=
  suf.data.isSuffixOf s.data

/-- JS s.includes(c) for a single character. -/
def jsIncludesChar (s : String) (c : Char) : Bool :=
  s.data.contains c

/-- JS s.length. -/
def jsLength (s : String) : Nat :=
  s.data.length

/-- JS s.replace with the backslash-to-forward-slash pattern. -/
def jsSlashes (s : String) : String :=
  String.mk (s.data.map (fun c => if c = '\\' then '/' else c))

/-- JS s.split on the newline character. -/
def jsSplitLines (s : String) : List String :=
  (s.data.splitOn '\n').map String.mk

/-! ## Change-Set Resolver: union of signals A, B, C -/

/-- Insertion-ordered deduplication pass, keeping the first occurrence of
every element: the behaviour of iterating a JavaScript Set built from a
spread of the three signal arrays. -/
def dedupGo (seen : List String) : List String → List String
  | [] => []
  | x :: xs =>
    if x ∈ seen then dedupGo seen xs else x :: dedupGo (x :: seen) xs

/-- The combination step of getPublishableMarkdownFiles: the three signal
results are spread into a Set and read back as an array
(Array.from(new Set([...a, ...b, ...c]))). -/
def getPublishableMarkdownFiles (a b c : List String) : List String :=
  dedupGo [] (a ++ b ++ c)

/-- A signal result as delivered by its promise: ok with a file list, or
a failure carrying an error message. -/
def SignalResult : Type := Except String (List String)

/-- The .catch handler attached to each signal inside
getPublishableMarkdownFiles: a failed signal contributes the empty list
(after logging a warning) instead of rejecting the combined promise. -/
def settleSignal : SignalResult → List String
  | Except.ok l => l
  | Except.error _ => []

/-- getPublishableMarkdownFiles including the per-signal catch handlers:
each signal is settled to a list (empty on failure) and the three lists
are unioned with Set deduplication.  The return type is a plain list, so
no signal failure can escape to the caller. -/
def getPublishableMarkdownFilesSafe (a b c : SignalResult) : List String :=
  getPublishableMarkdownFiles (settleSignal a) (settleSignal b) (settleSignal c)

theorem mem_dedupGo (l : List String) :
    ∀ (seen : List String) (y : String),
      y ∈ dedupGo seen l ↔ y ∈ l ∧ y ∉ seen := by
  induction l with
  | nil => intro seen y; simp [dedupGo]
  | cons x xs ih =>
    intro seen y
    by_cases hx : x ∈ seen
    · simp only [dedupGo, if_pos hx, ih]
      constructor
      · rintro ⟨hy, hns⟩; exact ⟨List.mem_cons_of_mem _ hy, hns⟩
      · rintro ⟨hy, hns⟩
        rcases List.mem_cons.mp hy with rfl | hy
        · exact absurd hx hns
        · exact ⟨hy, hns⟩
    · simp only [dedupGo, if_neg hx, List.mem_cons, ih]
      constructor
      · rintro (rfl | ⟨hy, hns⟩)
        · exact ⟨Or.inl rfl, hx⟩
        · refine ⟨Or.inr hy, ?_⟩
          intro hc
          exact hns (Or.inr hc)
      · rintro ⟨rfl | hy, hns⟩
        · exact Or.inl rfl
        · by_cases hyx : y = x
          · exact Or.inl hyx
          · refine Or.inr ⟨hy, ?_⟩
            rintro (h1 | h1)
            · exact hyx h1
            · exact hns h1

theorem nodup_dedupGo (l : List String) :
    ∀ seen : List String, (dedupGo seen l).Nodup := by
  induction l with
  | nil => intro seen; simp [dedupGo]
  | cons x xs ih =>
    intro seen
    by_cases hx : x ∈ seen
    · simpa [dedupGo, if_pos hx] using ih seen
    · simp only [dedupGo, if_neg hx]
      refine List.nodup_cons.mpr ⟨?_, ih (x :: seen)⟩
      intro hc
      exact ((mem_dedupGo xs (x :: seen) x).mp hc).2 (List.mem_cons_self x seen)

/-- C1: the resolver's result is the deduplicated union of the three
signals — membership is exactly membership in A, B or C; the result has
no duplicates; and every document present in some signal occurs exactly
once while a document in no signal does not occur. -/
theorem resolver_union_dedup (a b c : List String) :
    (getPublishableMarkdownFiles a b c).Nodup ∧
      (∀ x, x ∈ getPublishableMarkdownFiles a b c ↔ x ∈ a ∨ x ∈ b ∨ x ∈ c) ∧
      (∀ x, (x ∈ a ∨ x ∈ b ∨ x ∈ c) →
        (getPublishableMarkdownFiles a b c).count x = 1) ∧
      (∀ x, ¬(x ∈ a ∨ x ∈ b ∨ x ∈ c) →
        (getPublishableMarkdownFiles a b c).count x = 0) := by
  have hmem : ∀ x, x ∈ getPublishableMarkdownFiles a b c ↔
      x ∈ a ∨ x ∈ b ∨ x ∈ c := by
    intro x
    simp [getPublishableMarkdownFiles, mem_dedupGo, List.mem_append, or_assoc]
  have hnd : (getPublishableMarkdownFiles a b c).Nodup :=
    nodup_dedupGo _ _
  refine ⟨hnd, hmem, ?_, ?_⟩
  · intro x hx
    exact List.count_eq_one_of_mem hnd ((hmem x).mpr hx)
  · intro x hx
    exact List.count_eq_zero.mpr (fun hc => hx ((hmem x).mp hc))

/-- Closed instance of union correctness: a file reported by both
signal A and signal B occurs exactly once in the resolved list. -/
theorem resolver_union_dedup_witness :
    (getPublishableMarkdownFiles ["articles/a.md"]
      ["articles/a.md", "articles/b.md"] []).count "articles/a.md" = 1 :=
  (resolver_union_dedup ["articles/a.md"]
    ["articles/a.md", "articles/b.md"] []).2.2.1 "articles/a.md"
    (Or.inl (by decide))

/-- C2: signal isolation — when signal A fails the resolver returns
exactly the deduplicated union of B and C (and symmetrically for a
failure of B or of C); the result type is a plain list, so no exception
propagates to the caller. -/
theorem resolver_signal_isolation (e : String) (a b c : List String) :
    (getPublishableMarkdownFilesSafe (Except.error e) (Except.ok b)
        (Except.ok c) = getPublishableMarkdownFiles [] b c ∧
      ∀ x, x ∈ getPublishableMarkdownFilesSafe (Except.error e)
        (Except.ok b) (Except.ok c) ↔ x ∈ b ∨ x ∈ c) ∧
    (∀ x, x ∈ getPublishableMarkdownFilesSafe (Except.ok a)
        (Except.error e) (Except.ok c) ↔ x ∈ a ∨ x ∈ c) ∧
    (∀ x, x ∈ getPublishableMarkdownFilesSafe (Except.ok a) (Except.ok b)
        (Except.error e) ↔ x ∈ a ∨ x ∈ b) := by
  refine ⟨⟨rfl, ?_⟩, ?_, ?_⟩ <;>
    intro x <;>
    simp [getPublishableMarkdownFilesSafe, settleSignal,
      getPublishableMarkdownFiles, mem_dedupGo, List.mem_append, or_assoc]

/-! ## Remote Branch Resolver (inside getChangedFilesAgainstRemote) -/

/-- The comparison-branch resolution of getChangedFilesAgainstRemote,
with the observable results of the three git commands supplied as
oracles: the rev-parse of the upstream ref (ok with its trimmed output,
or error), and whether rev-parse --verify succeeds on origin/main and
origin/master.  Mirrors the nested try/catch chain of the source. -/
def resolveComparisonBranch (upstream : Except String String)
    (mainExists masterExists : Bool) : Except String String :=
  match upstream with
  | Except.ok u => Except.ok u
  | Except.error _ =>
    if mainExists then Except.ok "origin/main"
    else if masterExists then Except.ok "origin/master"
    else Except.error
      "Remote tracking branch (origin/main or origin/master) not found."

/-- C8: the comparison branch is resolved by trying, in order, the
configured upstream ref verbatim, then origin/main, then origin/master,
and an error results exactly when all three are unavailable. -/
theorem branch_fallback_chain (upstream : Except String String)
    (mainExists masterExists : Bool) :
    (∀ u, upstream = Except.ok u →
      resolveComparisonBranch upstream mainExists masterExists =
        Except.ok u) ∧
    (∀ e, upstream = Except.error e → mainExists = true →
      resolveComparisonBranch upstream mainExists masterExists =
        Except.ok "origin/main") ∧
    (∀ e, upstream = Except.error e → mainExists = false →
      masterExists = true →
      resolveComparisonBranch upstream mainExists masterExists =
        Except.ok "origin/master") ∧
    ((∃ msg, resolveComparisonBranch upstream mainExists masterExists =
        Except.error msg) ↔
      (∃ e, upstream = Except.error e) ∧ mainExists = false ∧
        masterExists = false) := by
  cases upstream with
  | ok u => simp [resolveComparisonBranch]
  | error e =>
    cases mainExists <;> cases masterExists <;>
      simp [resolveComparisonBranch]

/-- A closed instance of the fallback chain: with no upstream and no
origin/main but an existing origin/master, the resolver picks
origin/master. -/
theorem branch_fallback_chain_witness :
    resolveComparisonBranch (Except.error "no upstream") false true =
      Except.ok "origin/master" :=
  (branch_fallback_chain (Except.error "no upstream") false true).2.2.1
    "no upstream" rfl rfl rfl

/-! ## Signal B: getLocalNewMarkdownFiles -/

/-- A directory entry as returned by fs.readdir with file types, paired
with the outcome of readFileContent on it: none models a read or
front-matter parse failure, some gives the parsed header and body. -/
structure DirEntry where
  name : String
  isFile : Bool
  content : Option (Header × String)

/-- The loop body of getLocalNewMarkdownFiles for one directory entry:
a plain .md file with readable front matter is pushed onto the
accumulator (as articlesDir/name, forward slashes) when its
dev_to_article_id is falsy; a read/parse failure merely skips the ID
check for that file. -/
def signalBStep (articlesDir : String) (acc : List String)
    (d : DirEntry) : List String :=
  if d.isFile && jsEndsWith d.name ".md" then
    match d.content with
    | some (h, _) =>
      if !(fmTruthy (getField h "dev_to_article_id")) then
        acc ++ [articlesDir ++ "/" ++ d.name]
      else acc
    | none => acc
  else acc

/-- Signal B over the directory listing of articlesDir. -/
def getLocalNewMarkdownFiles (articlesDir : String)
    (dirents : List DirEntry) : List String :=
  dirents.foldl (signalBStep articlesDir) []

/-- Whether a directory entry is collected by signal B: a plain .md file
with readable front matter whose dev_to_article_id value is falsy. -/
def signalBIncludes (d : DirEntry) : Bool :=
  d.isFile && jsEndsWith d.name ".md" &&
    (match d.content with
     | some (h, _) => !(fmTruthy (getField h "dev_to_article_id"))
     | none => false)

theorem signalBStep_eq (articlesDir : String) (acc : List String)
    (d : DirEntry) :
    signalBStep articlesDir acc d =
      acc ++ (if signalBIncludes d then [articlesDir ++ "/" ++ d.name]
              else []) := by
  unfold signalBStep signalBIncludes
  cases hc : d.content with
  | none =>
    cases hb : (d.isFile && jsEndsWith d.name ".md") <;> simp [hb, hc]
  | some pr =>
    cases hb : (d.isFile && jsEndsWith d.name ".md") <;>
      cases hf : fmTruthy (getField pr.1 "dev_to_article_id") <;>
        simp [hb, hc, hf]

theorem getLocalNewMarkdownFiles_go (articlesDir : String)
    (dirents : List DirEntry) (acc : List String) :
    dirents.foldl (signalBStep articlesDir) acc =
    acc ++ (dirents.filter signalBIncludes).map
      (fun d => articlesDir ++ "/" ++ d.name) := by
  induction dirents generalizing acc with
  | nil => simp
  | cons d ds ih =>
    rw [List.foldl_cons, signalBStep_eq, ih, List.filter_cons]
    cases hs : signalBIncludes d <;> simp [hs]

/-- Characterization of signal B: exactly the readable .md entries with
a falsy dev_to_article_id are collected, in directory order, each under
the path articlesDir/name. -/
theorem getLocalNewMarkdownFiles_eq (articlesDir : String)
    (dirents : List DirEntry) :
    getLocalNewMarkdownFiles articlesDir dirents =
      (dirents.filter signalBIncludes).map
        (fun d => articlesDir ++ "/" ++ d.name) := by
  simpa using getLocalNewMarkdownFiles_go articlesDir dirents []

theorem string_append_left_cancel (a x y : String)
    (h : a ++ x = a ++ y) : x = y := by
  cases a with
  | mk da =>
    cases x with
    | mk dx =>
      cases y with
      | mk dy =>
        have hd : da ++ dx = da ++ dy := congrArg String.data h
        exact congrArg String.mk (List.append_cancel_left hd)

/-- C4 counterexample: a document whose dev_to_article_id is the string
"not-a-number" fails to parse as an integer, yet signal B does not
include it — the code tests JavaScript truthiness, never parsing, and a
non-empty string is truthy. -/
theorem signalB_malformed_id_cex :
    parseIntJS "not-a-number" = none ∧
    getLocalNewMarkdownFiles "articles"
      [DirEntry.mk "a.md" true
        (some ([("dev_to_article_id", JSValue.vStr "not-a-number")],
          "body"))] = [] := by
  constructor
  · rfl
  · rfl

/-- C4 (amended): for a plain .md entry with readable front matter in a
listing with distinct names, signal B includes its path articlesDir/name
if and only if its dev_to_article_id value is absent or falsy (0, empty
string, false, null); a present truthy value — even one that fails to
parse as an integer — excludes the document. -/
theorem signalB_includes_iff_falsy_id (articlesDir : String)
    (dirents : List DirEntry) (d : DirEntry) (h : Header) (body : String)
    (hnd : (dirents.map DirEntry.name).Nodup) (hd : d ∈ dirents)
    (hf : d.isFile = true) (hmd : jsEndsWith d.name ".md" = true)
    (hc : d.content = some (h, body)) :
    (articlesDir ++ "/" ++ d.name) ∈
        getLocalNewMarkdownFiles articlesDir dirents ↔
      fmTruthy (getField h "dev_to_article_id") = false := by
  rw [getLocalNewMarkdownFiles_eq]
  constructor
  · intro hmem
    rcases List.mem_map.mp hmem with ⟨e, hef, hee⟩
    rcases List.mem_filter.mp hef with ⟨hemem, heinc⟩
    have hname : e.name = d.name :=
      string_append_left_cancel (articlesDir ++ "/") e.name d.name hee
    have hed : e = d :=
      List.inj_on_of_nodup_map hnd hemem hd hname
    subst hed
    simp only [signalBIncludes, hc, Bool.and_eq_true,
      Bool.not_eq_true'] at heinc
    exact heinc.2
  · intro hfalsy
    refine List.mem_map.mpr ⟨d, List.mem_filter.mpr ⟨hd, ?_⟩, rfl⟩
    simp [signalBIncludes, hc, hf, hmd, hfalsy]

/-- Closed instance of the signal-B characterization: a lone .md file
with no dev_to_article_id at all is included by signal B. -/
theorem signalB_includes_iff_falsy_id_witness :
    "articles/a.md" ∈ getLocalNewMarkdownFiles "articles"
      [DirEntry.mk "a.md" true (some ([("title", JSValue.vStr "T")], "b"))] :=
  (signalB_includes_iff_falsy_id "articles"
    [DirEntry.mk "a.md" true (some ([("title", JSValue.vStr "T")], "b"))]
    (DirEntry.mk "a.md" true (some ([("title", JSValue.vStr "T")], "b")))
    [("title", JSValue.vStr "T")] "b" (by decide)
    (List.mem_singleton.mpr rfl) rfl (by decide) rfl).mpr rfl

/-! ## Signal C: getLocalStatusChangedMarkdownFiles -/

/-- The quote handling of getLocalStatusChangedMarkdownFiles: when the
raw path starts and ends with a double quote, JS substring(1, length-1)
removes the first and last characters.  JS String.substring swaps
out-of-order indices, so on the one-character string made of a lone
quote it returns the string unchanged. -/
def unquoteStatusPath (raw : String) : String :=
  if jsStartsWith raw "\"" && jsEndsWith raw "\"" then
    if jsLength raw = 1 then raw else jsDropLastChar (jsDropChars raw 1)
  else raw

/-- The two-character status code of a porcelain line
(line.substring(0, 2)). -/
def statusLineStatus (line : String) : String :=
  jsTakeChars line 2

/-- The path field of a porcelain line: line.substring(3).trim() with
one layer of surrounding double quotes removed. -/
def statusLinePath (line : String) : String :=
  unquoteStatusPath (jsTrim (jsDropChars line 3))

/-- Processing of one porcelain status line: keep .md paths whose status
is untracked, modified, added or renamed; normalize to forward slashes
(resolve-then-relative is the identity on the already repo-relative
porcelain paths); discard paths not under articlesDir. -/
def getStatusCandidate (articlesDir line : String) : Option String :=
  let status := statusLineStatus line
  let filePath := statusLinePath line
  if jsEndsWith filePath ".md" &&
      (jsStartsWith status "??" || jsIncludesChar status 'M' ||
        jsStartsWith status "A" || jsStartsWith status "R") then
    let relativePath := jsSlashes filePath
    if jsStartsWith relativePath (jsSlashes articlesDir ++ "/") then
      some relativePath
    else none
  else none

/-- Signal C: split the porcelain stdout into lines, drop blank lines,
and collect the candidate of every remaining line. -/
def getLocalStatusChangedMarkdownFiles (articlesDir stdout : String) :
    List String :=
  ((jsSplitLines stdout).filter (fun l => jsTrim l != "")).foldl
    (fun acc l =>
      match getStatusCandidate articlesDir l with
      | some p => acc ++ [p]
      | none => acc) []

/-- C9: a status-line path wrapped in surrounding double quotes has
exactly that one layer stripped (first and last character removed)
before any further processing; concretely the line with the quoted path
"my article.md" yields the unquoted path, and a quoted path under the
articles directory survives the whole signal-C pipeline unquoted. -/
theorem statusC_quote_stripping (raw : String)
    (h1 : jsStartsWith raw "\"" = true) (h2 : jsEndsWith raw "\"" = true)
    (h3 : 2 ≤ jsLength raw) :
    unquoteStatusPath raw = jsDropLastChar (jsDropChars raw 1) ∧
    statusLinePath "?? \"my article.md\"" = "my article.md" ∧
    getStatusCandidate "articles" "?? \"articles/my article.md\"" =
      some "articles/my article.md" ∧
    getLocalStatusChangedMarkdownFiles "articles"
      "?? \"articles/my article.md\"" = ["articles/my article.md"] := by
  refine ⟨?_, by decide, by decide, by decide⟩
  have hne : jsLength raw ≠ 1 := by omega
  simp [unquoteStatusPath, h1, h2, hne]

/-- Closed instance of the quote-stripping theorem at the wrapped path
consisting of the quoted name "x". -/
theorem statusC_quote_stripping_witness :
    unquoteStatusPath "\"x\"" =
      jsDropLastChar (jsDropChars "\"x\"" 1) ∧
    statusLinePath "?? \"my article.md\"" = "my article.md" ∧
    getStatusCandidate "articles" "?? \"articles/my article.md\"" =
      some "articles/my article.md" ∧
    getLocalStatusChangedMarkdownFiles "articles"
      "?? \"articles/my article.md\"" = ["articles/my article.md"] :=
  statusC_quote_stripping "\"x\"" (by decide) (by decide) (by decide)

/-! ## Publish Transaction Executor: publishArticle -/

/-- Observable result of a successful Dev.to create call. -/
structure ApiResponse where
  id : Int
  url : String
deriving DecidableEq

/-- Oracle for the Dev.to client while one document is processed: what
the create call would return, and what the update call would return
(the url of the updated article). -/
structure ApiBehavior where
  createRes : Except String ApiResponse
  updateRes : Except String String

/-- The outbound payload assembled from the front matter (the article
object of DevToArticlePayload). -/
structure ArticlePayload where
  title : JSValue
  body_markdown : String
  published : JSValue
  tags : JSValue
  series : JSValue
  main_image : JSValue
  canonical_url : JSValue
  description : JSValue
  organization_id : JSValue
deriving DecidableEq

/-- An outbound Dev.to call. -/
inductive ApiCall where
  | create (payload : ArticlePayload)
  | update (id : Int) (payload : ArticlePayload)
deriving DecidableEq

/-- Terminal action recorded for a document. -/
inductive Action where
  | created
  | updated
  | failed
  | skipped
deriving DecidableEq

/-- One entry of the results array (PublishResult in the source). -/
structure PublishResult where
  file : String
  success : Bool
  url : Option String
  id : Option Int
  error : Option String
  skipped : Bool
  action : Action
deriving DecidableEq

/-- JS x or-else d on a possibly-absent front-matter property. -/
def jsOr (o : Option JSValue) (d : JSValue) : JSValue :=
  match o with
  | some v => if truthy v then v else d
  | none => d

/-- The payload assembled in publishArticle: title as read, the
image-rewritten markdown, published defaulting to false only when the
property is undefined, and the remaining fields with JS or-defaults. -/
def mkPayload (h : Header) (markdownForDevto : String) : ArticlePayload :=
  { title := (getField h "title").getD JSValue.vNull
    body_markdown := markdownForDevto
    published :=
      match getField h "published" with
      | none => JSValue.vBool false
      | some v => v
    tags := jsOr (getField h "tags") (JSValue.vArr [])
    series := jsOr (getField h "series") JSValue.vNull
    main_image := jsOr (getField h "main_image") JSValue.vNull
    canonical_url := jsOr (getField h "canonical_url") JSValue.vNull
    description := jsOr (getField h "description") (JSValue.vStr "")
    organization_id := jsOr (getField h "organization_id") JSValue.vNull }

/-- The articleId computation of publishArticle: a falsy (or absent)
dev_to_article_id gives null; otherwise parseInt of its String form,
with a NaN result converted back to null by the isNaN check. -/
def routeArticleId (fm : Option JSValue) : Option Int :=
  match fm with
  | some v => if truthy v then parseIntJS (jsToString v) else none
  | none => none

/-- JS truthiness of the final articleId (null and 0 are falsy),
deciding update versus create. -/
def jsNumTruthy : Option Int → Bool
  | some n => n != 0
  | none => false

/-- Whether publishArticle routes a document with this
dev_to_article_id property value to the update branch. -/
def routesToUpdate (fm : Option JSValue) : Bool :=
  jsNumTruthy (routeArticleId fm)

/-- The article files on disk, in parsed form (the gray-matter codec is
an assumed round-trip collaborator): a map from repo-relative path to
header and body. -/
abbrev FileSystem := List (String × (Header × String))

/-- fs.readFile followed by gray-matter parsing; none models a read or
parse failure. -/
def lookupFS (fs : FileSystem) (p : String) : Option (Header × String) :=
  (List.find? (fun e => e.1 == p) fs).map (fun e => e.2)

/-- fs.writeFile of a document serialized by matter.stringify (kept in
parsed form). -/
def writeFS (fs : FileSystem) (p : String) (doc : Header × String) :
    FileSystem :=
  setAssoc fs p doc

/-- The results.push entry for a skipped document. -/
def skippedResult (p : String) : PublishResult :=
  { file := p, success := false, url := none, id := none,
    error := some "Missing title", skipped := true,
    action := Action.skipped }

/-- The results.push entry for a failed document. -/
def failedResult (p msg : String) : PublishResult :=
  { file := p, success := false, url := none, id := none,
    error := some msg, skipped := false, action := Action.failed }

/-- The results.push entry after a successful update. -/
def updatedResult (p url : String) (n : Int) : PublishResult :=
  { file := p, success := true, url := some url, id := some n,
    error := none, skipped := false, action := Action.updated }

/-- The results.push entry after a successful creation. -/
def createdResult (p url : String) (n : Int) : PublishResult :=
  { file := p, success := true, url := some url, id := some n,
    error := none, skipped := false, action := Action.created }

/-- Effects of processing one candidate: the recorded result, the file
system afterwards, and the outbound Dev.to calls made. -/
structure StepResult where
  res : PublishResult
  fs : FileSystem
  calls : List ApiCall

/-- One iteration of the publishArticle loop for candidate path p:
read and parse the file (a failure is caught and recorded as failed),
skip on a falsy title, rewrite the body for the outbound payload only,
route on the parsed dev_to_article_id, call the Dev.to client, and on
successful creation only write the document back with the returned id
stamped into the header and the original body. -/
def processFile (conv : String → String) (api : ApiBehavior)
    (fs : FileSystem) (p : String) : StepResult :=
  match lookupFS fs p with
  | none =>
    { res := failedResult p "read error", fs := fs, calls := [] }
  | some (h, body) =>
    if !(fmTruthy (getField h "title")) then
      { res := skippedResult p, fs := fs, calls := [] }
    else
      let markdownForDevto := conv body
      let payload := mkPayload h markdownForDevto
      let articleId := routeArticleId (getField h "dev_to_article_id")
      if jsNumTruthy articleId then
        match api.updateRes with
        | Except.ok url =>
          { res := updatedResult p url (articleId.getD 0), fs := fs,
            calls := [ApiCall.update (articleId.getD 0) payload] }
        | Except.error e =>
          { res := failedResult p e, fs := fs,
            calls := [ApiCall.update (articleId.getD 0) payload] }
      else
        match api.createRes with
        | Except.ok r =>
          { res := createdResult p r.url r.id,
            fs := writeFS fs p
              (setAssoc h "dev_to_article_id" (JSValue.vNum r.id), body),
            calls := [ApiCall.create payload] }
        | Except.error e =>
          { res := failedResult p e, fs := fs,
            calls := [ApiCall.create payload] }

/-- State of the whole batch loop. -/
structure BatchState where
  results : List PublishResult
  fs : FileSystem
  calls : List ApiCall

/-- The sequential candidate loop of publishArticle, with the per-path
Dev.to behaviour supplied by an oracle. -/
def processAll (conv : String → String)
    (apiFor : String → ApiBehavior) :
    FileSystem → List String → BatchState
  | fs, [] => { results := [], fs := fs, calls := [] }
  | fs, p :: rest =>
    let step := processFile conv (apiFor p) fs p
    let batch := processAll conv apiFor step.fs rest
    { results := step.res :: batch.results, fs := batch.fs,
      calls := step.calls ++ batch.calls }

/-- The outcomes that drive the git add, commit message and push step
(successfulApiOperations in the source). -/
def commitStagingSet (results : List PublishResult) :
    List PublishResult :=
  results.filter (fun r =>
    r.success &&
      (r.action == Action.created || r.action == Action.updated))

/-- Whether the calls of one step are exactly one update call. -/
def isUpdateCalls : List ApiCall → Bool
  | [ApiCall.update _ _] => true
  | _ => false

/-- Whether the calls of one step are exactly one create call. -/
def isCreateCalls : List ApiCall → Bool
  | [ApiCall.create _] => true
  | _ => false

theorem processFile_skip (conv : String → String) (api : ApiBehavior)
    (fs : FileSystem) (p : String) (h : Header) (body : String)
    (hr : lookupFS fs p = some (h, body))
    (htf : fmTruthy (getField h "title") = false) :
    processFile conv api fs p =
      { res := skippedResult p, fs := fs, calls := [] } := by
  simp [processFile, hr, htf]

theorem processFile_routed (conv : String → String) (api : ApiBehavior)
    (fs : FileSystem) (p : String) (h : Header) (body : String)
    (hr : lookupFS fs p = some (h, body))
    (ht : fmTruthy (getField h "title") = true) :
    processFile conv api fs p =
      if jsNumTruthy (routeArticleId (getField h "dev_to_article_id")) then
        match api.updateRes with
        | Except.ok url =>
          { res := updatedResult p url
              ((routeArticleId (getField h "dev_to_article_id")).getD 0),
            fs := fs,
            calls := [ApiCall.update
              ((routeArticleId (getField h "dev_to_article_id")).getD 0)
              (mkPayload h (conv body))] }
        | Except.error e =>
          { res := failedResult p e, fs := fs,
            calls := [ApiCall.update
              ((routeArticleId (getField h "dev_to_article_id")).getD 0)
              (mkPayload h (conv body))] }
      else
        match api.createRes with
        | Except.ok r =>
          { res := createdResult p r.url r.id,
            fs := writeFS fs p
              (setAssoc h "dev_to_article_id" (JSValue.vNum r.id), body),
            calls := [ApiCall.create (mkPayload h (conv body))] }
        | Except.error e =>
          { res := failedResult p e, fs := fs,
            calls := [ApiCall.create (mkPayload h (conv body))] } := by
  simp [processFile, hr, ht]

theorem routesToUpdate_iff (fm : Option JSValue) :
    routesToUpdate fm = true ↔
      ∃ v n, fm = some v ∧ truthy v = true ∧
        parseIntJS (jsToString v) = some n ∧ n ≠ 0 := by
  cases fm with
  | none => simp [routesToUpdate, routeArticleId, jsNumTruthy]
  | some v =>
    cases htv : truthy v with
    | false => simp [routesToUpdate, routeArticleId, jsNumTruthy, htv]
    | true =>
      cases hp : parseIntJS (jsToString v) with
      | none =>
        simp [routesToUpdate, routeArticleId, jsNumTruthy, htv, hp]
      | some n =>
        simp [routesToUpdate, routeArticleId, jsNumTruthy, htv, hp,
          bne_iff_ne]

/-- Dev.to oracle succeeding on both call kinds. -/
def apiOk : ApiBehavior :=
  { createRes := Except.ok { id := 7, url := "https://dev.to/u/a" },
    updateRes := Except.ok "https://dev.to/u/a" }

/-- Dev.to oracle failing on both call kinds. -/
def apiErr : ApiBehavior :=
  { createRes := Except.error "API Error: 422",
    updateRes := Except.error "API Error: 422" }

/-- Header carrying a negative remote identifier. -/
def negIdHeader : Header :=
  [("title", JSValue.vStr "T"),
   ("dev_to_article_id", JSValue.vNum (-7))]

/-- Singleton article directory with the negative-identifier file. -/
def negIdFs : FileSystem := [("articles/a.md", (negIdHeader, "body"))]

/-- C3 counterexample: a document whose dev_to_article_id is -7 — which
is present and parses as an integer but not a positive one — is routed
to Update (the step performs exactly one update call), refuting the
claim that only positive identifiers route to Update. -/
theorem routing_positive_cex :
    isUpdateCalls (processFile (fun b => b) apiOk negIdFs
        "articles/a.md").calls = true ∧
    parseIntJS (jsToString (JSValue.vNum (-7))) = some (-7) ∧
    ¬(0 < (-7 : Int)) := by
  refine ⟨by decide, by decide, by decide⟩

/-- C3 (amended): with the document readable and the title guard
passed, publishArticle issues exactly one update call when the
dev_to_article_id property is truthy and parseInt of its String form
yields a nonzero integer of either sign, and otherwise — property
absent, falsy, or unparsable like the string "not-a-number" — exactly
one create call. -/
theorem routing_amended (conv : String → String) (api : ApiBehavior)
    (fs : FileSystem) (p : String) (h : Header) (body : String)
    (hr : lookupFS fs p = some (h, body))
    (ht : fmTruthy (getField h "title") = true) :
    isUpdateCalls (processFile conv api fs p).calls =
        routesToUpdate (getField h "dev_to_article_id") ∧
    isCreateCalls (processFile conv api fs p).calls =
        !(routesToUpdate (getField h "dev_to_article_id")) ∧
    (routesToUpdate (getField h "dev_to_article_id") = true ↔
      ∃ v n, getField h "dev_to_article_id" = some v ∧
        truthy v = true ∧ parseIntJS (jsToString v) = some n ∧ n ≠ 0) := by
  rw [processFile_routed conv api fs p h body hr ht]
  refine ⟨?_, ?_, routesToUpdate_iff _⟩
  · cases hru : jsNumTruthy (routeArticleId (getField h "dev_to_article_id")) with
    | true =>
      cases api.updateRes <;> simp [routesToUpdate, hru, isUpdateCalls]
    | false =>
      cases api.createRes <;> simp [routesToUpdate, hru, isUpdateCalls]
  · cases hru : jsNumTruthy (routeArticleId (getField h "dev_to_article_id")) with
    | true =>
      cases api.updateRes <;> simp [routesToUpdate, hru, isCreateCalls]
    | false =>
      cases api.createRes <;> simp [routesToUpdate, hru, isCreateCalls]

/-- Closed instance of the amended routing theorem: a readable document
with title and dev_to_article_id 42 makes exactly one update call. -/
theorem routing_amended_witness :
    isUpdateCalls (processFile (fun b => b) apiOk
        [("articles/live.md",
          ([("title", JSValue.vStr "B"),
            ("dev_to_article_id", JSValue.vNum 42)], "body"))]
        "articles/live.md").calls =
      routesToUpdate (getField
        [("title", JSValue.vStr "B"),
         ("dev_to_article_id", JSValue.vNum 42)] "dev_to_article_id") :=
  (routing_amended (fun b => b) apiOk
    [("articles/live.md",
      ([("title", JSValue.vStr "B"),
        ("dev_to_article_id", JSValue.vNum 42)], "body"))]
    "articles/live.md"
    [("title", JSValue.vStr "B"), ("dev_to_article_id", JSValue.vNum 42)]
    "body" (by decide) (by decide)).1

/-- C5: on the create route, a successful creation rewrites exactly the
processed file, to the document made of the header read at the start of
the transaction with dev_to_article_id set to the returned id together
with the body read at the start — the image-rewritten body conv body is
sent to the remote only and never reaches disk; on the update route a
successful update performs no write at all, leaving every file
unchanged. -/
theorem local_write_minimality (conv : String → String)
    (api : ApiBehavior) (fs : FileSystem) (p : String) (h : Header)
    (body : String) (hr : lookupFS fs p = some (h, body))
    (ht : fmTruthy (getField h "title") = true) :
    (∀ r, routesToUpdate (getField h "dev_to_article_id") = false →
      api.createRes = Except.ok r →
      (processFile conv api fs p).fs =
        writeFS fs p
          (setAssoc h "dev_to_article_id" (JSValue.vNum r.id), body)) ∧
    (∀ u, routesToUpdate (getField h "dev_to_article_id") = true →
      api.updateRes = Except.ok u →
      (processFile conv api fs p).fs = fs) := by
  rw [processFile_routed conv api fs p h body hr ht]
  constructor
  · intro r hru hok
    simp only [routesToUpdate] at hru
    simp [hru, hok]
  · intro u hru hok
    simp only [routesToUpdate] at hru
    simp [hru, hok]

/-- Closed instance of local-write minimality: creating a draft with a
body-changing image rewrite stamps id 7 into the header and writes the
original body back. -/
theorem local_write_minimality_witness :
    (processFile (fun b => b ++ "[rewritten]") apiOk
        [("articles/draft.md", ([("title", JSValue.vStr "A")], "body"))]
        "articles/draft.md").fs =
      writeFS [("articles/draft.md", ([("title", JSValue.vStr "A")], "body"))]
        "articles/draft.md"
        (setAssoc [("title", JSValue.vStr "A")] "dev_to_article_id"
          (JSValue.vNum 7), "body") :=
  (local_write_minimality (fun b => b ++ "[rewritten]") apiOk
    [("articles/draft.md", ([("title", JSValue.vStr "A")], "body"))]
    "articles/draft.md" [("title", JSValue.vStr "A")] "body"
    (by decide) (by decide)).1
    { id := 7, url := "https://dev.to/u/a" } (by decide) rfl

/-- C6: when the create-or-update call for a readable, titled candidate
fails, the recorded outcome is Failed carrying the error message, the
file system is untouched (the create-path write happens only after a
successful create), and the batch loop continues with the remaining
candidates from the same file-system state. -/
theorem publish_failure_isolated (conv : String → String)
    (apiFor : String → ApiBehavior) (fs : FileSystem) (p : String)
    (rest : List String) (h : Header) (body : String) (e : String)
    (hr : lookupFS fs p = some (h, body))
    (ht : fmTruthy (getField h "title") = true)
    (he : if routesToUpdate (getField h "dev_to_article_id") = true
      then (apiFor p).updateRes = Except.error e
      else (apiFor p).createRes = Except.error e) :
    (processFile conv (apiFor p) fs p).res = failedResult p e ∧
    (processFile conv (apiFor p) fs p).fs = fs ∧
    (processAll conv apiFor fs (p :: rest)).results =
      failedResult p e ::
        (processAll conv apiFor fs rest).results := by
  have hstep : (processFile conv (apiFor p) fs p).res = failedResult p e ∧
      (processFile conv (apiFor p) fs p).fs = fs := by
    rw [processFile_routed conv (apiFor p) fs p h body hr ht]
    cases hru : jsNumTruthy (routeArticleId (getField h "dev_to_article_id")) with
    | true =>
      rw [if_pos (by simp [routesToUpdate, hru])] at he
      simp [hru, he]
    | false =>
      rw [if_neg (by simp [routesToUpdate, hru])] at he
      simp [hru, he]
  refine ⟨hstep.1, hstep.2, ?_⟩
  show (let step := processFile conv (apiFor p) fs p
    let batch := processAll conv apiFor step.fs rest
    BatchState.mk (step.res :: batch.results) batch.fs
      (step.calls ++ batch.calls)).results =
    failedResult p e :: (processAll conv apiFor fs rest).results
  simp [hstep.1, hstep.2]

/-- Closed instance of failure isolation: a failing create on the first
of two candidates leaves the second processed from the unchanged file
system. -/
theorem publish_failure_isolated_witness :
    (processFile (fun b => b) apiErr
        [("articles/draft.md", ([("title", JSValue.vStr "A")], "body"))]
        "articles/draft.md").res =
      failedResult "articles/draft.md" "API Error: 422" ∧
    (processAll (fun b => b) (fun _ => apiErr)
        [("articles/draft.md", ([("title", JSValue.vStr "A")], "body"))]
        ["articles/draft.md", "articles/other.md"]).results =
      failedResult "articles/draft.md" "API Error: 422" ::
        (processAll (fun b => b) (fun _ => apiErr)
          [("articles/draft.md", ([("title", JSValue.vStr "A")], "body"))]
          ["articles/other.md"]).results := by
  have happ := publish_failure_isolated (fun b => b) (fun _ => apiErr)
    [("articles/draft.md", ([("title", JSValue.vStr "A")], "body"))]
    "articles/draft.md" ["articles/other.md"]
    [("title", JSValue.vStr "A")] "body" "API Error: 422"
    (by decide) (by decide) (by rw [if_neg (by decide)]; rfl)
  exact ⟨happ.1, happ.2.2⟩

/-- C7: a readable candidate whose title is absent or the empty string
is recorded as Skipped (never Failed), makes no Dev.to call, writes no
file, and its recorded outcome never belongs to the commit-staging
set. -/
theorem skip_exclusion (conv : String → String) (api : ApiBehavior)
    (fs : FileSystem) (p : String) (h : Header) (body : String)
    (hr : lookupFS fs p = some (h, body))
    (ht : getField h "title" = none ∨
      getField h "title" = some (JSValue.vStr "")) :
    (processFile conv api fs p).res = skippedResult p ∧
    (processFile conv api fs p).res.action = Action.skipped ∧
    (processFile conv api fs p).res.action ≠ Action.failed ∧
    (processFile conv api fs p).calls = [] ∧
    (processFile conv api fs p).fs = fs ∧
    ∀ results : List PublishResult,
      (processFile conv api fs p).res ∉ commitStagingSet results := by
  have htf : fmTruthy (getField h "title") = false := by
    rcases ht with ht | ht <;> simp [ht, fmTruthy, truthy]
  rw [processFile_skip conv api fs p h body hr htf]
  refine ⟨rfl, rfl, by simp [skippedResult], rfl, rfl, ?_⟩
  intro results hc
  have hmem := List.mem_filter.mp hc
  simp [skippedResult] at hmem

/-- Closed instance of skip exclusion: a document with no title field at
all is skipped and stays out of every commit-staging set. -/
theorem skip_exclusion_witness :
    (processFile (fun b => b) apiOk
        [("articles/untitled.md", ([("published", JSValue.vBool true)], "b"))]
        "articles/untitled.md").res =
      skippedResult "articles/untitled.md" ∧
    (processFile (fun b => b) apiOk
        [("articles/untitled.md", ([("published", JSValue.vBool true)], "b"))]
        "articles/untitled.md").res ∉
      commitStagingSet [skippedResult "articles/untitled.md"] := by
  have happ := skip_exclusion (fun b => b) apiOk
    [("articles/untitled.md", ([("published", JSValue.vBool true)], "b"))]
    "articles/untitled.md" [("published", JSValue.vBool true)] "b"
    (by decide) (Or.inl (by decide))
  exact ⟨happ.1, happ.2.2.2.2.2 [skippedResult "articles/untitled.md"]⟩

/-- C10: any falsy dev_to_article_id value — 0, the empty string, false
or null — is treated as absent at every decision point: signal B lists
the file as a missing-identifier candidate, the routing decision is
against Update, and the executor issues a create call for it. -/
theorem falsy_id_treated_absent (v : JSValue) (hv : truthy v = false) :
    (∀ (articlesDir name body : String) (h : Header)
        (rest : List DirEntry),
      jsEndsWith name ".md" = true →
      getField h "dev_to_article_id" = some v →
      (articlesDir ++ "/" ++ name) ∈
        getLocalNewMarkdownFiles articlesDir
          (DirEntry.mk name true (some (h, body)) :: rest)) ∧
    routesToUpdate (some v) = false ∧
    (∀ (conv : String → String) (api : ApiBehavior) (fs : FileSystem)
        (p : String) (h : Header) (body : String),
      lookupFS fs p = some (h, body) →
      fmTruthy (getField h "title") = true →
      getField h "dev_to_article_id" = some v →
      isCreateCalls (processFile conv api fs p).calls = true) := by
  have hroute : routesToUpdate (some v) = false := by
    simp [routesToUpdate, routeArticleId, jsNumTruthy, hv]
  refine ⟨?_, hroute, ?_⟩
  · intro articlesDir name body h rest hmd hid
    rw [getLocalNewMarkdownFiles_eq]
    refine List.mem_map.mpr
      ⟨DirEntry.mk name true (some (h, body)),
        List.mem_filter.mpr ⟨List.mem_cons_self _ _, ?_⟩, rfl⟩
    simp [signalBIncludes, hmd, hid, fmTruthy, hv]
  · intro conv api fs p h body hr htitle hid
    rw [processFile_routed conv api fs p h body hr htitle]
    have hru : jsNumTruthy (routeArticleId (getField h "dev_to_article_id")) = false := by
      rw [hid]
      simpa [routesToUpdate] using hroute
    cases api.createRes <;> simp [hru, isCreateCalls]

/-- Closed instance: value 0 is treated as absent — the file appears in
signal B and the routing decision is against Update. -/
theorem falsy_id_treated_absent_witness :
    ("articles/d.md" ∈ getLocalNewMarkdownFiles "articles"
        [DirEntry.mk "d.md" true
          (some ([("dev_to_article_id", JSValue.vNum 0)], "b"))]) ∧
    routesToUpdate (some (JSValue.vNum 0)) = false := by
  have happ := falsy_id_treated_absent (JSValue.vNum 0) (by decide)
  exact ⟨happ.1 "articles" "d.md" "b"
    [("dev_to_article_id", JSValue.vNum 0)] [] (by decide) (by decide),
    happ.2.1⟩

end DevtoCli
